import Mathlib

/-!
Verification model of the overlay PDF editor component (DocumentEditor).

The component is a single-threaded React function component; its observable
state is the collection of `useState` hooks plus the `pendingChanges` ref.
User actions are event handlers that queue state updates; after each event,
React commits the batch and runs the two history `useEffect` hooks in
declaration order.  Both effects fire whenever `tempState` is non-null: the
first appends `tempState` to `history` and increments `currentStep`, the
second (guarded by the `pendingChanges` ref, which the first effect does not
clear) appends and increments again.  Queued functional updaters are applied
sequentially to the latest value, while non-functional reads inside them
(`currentStep`, `tempState`) use the render's closure values.  `runEffects`
below reproduces exactly that combined update.
-/

namespace DocEditor

/-- A text overlay annotation: `{ id: Date.now(), x, y, value: '' }` created by
`handlePreviewClick`.  Coordinates are modelled as rationals (JS numbers,
exact arithmetic). -/
structure TextInput where
  id : Nat
  x : ℚ
  y : ℚ
  value : String
  deriving DecidableEq

/-- The snapshot captured by `updateState`: `{ textInputs, signatureData,
signaturePosition }`. -/
structure Snapshot where
  textInputs : List TextInput
  signatureData : Option String
  signaturePosition : ℚ × ℚ
  deriving DecidableEq

instance : Inhabited Snapshot :=
  ⟨{ textInputs := [], signatureData := none, signaturePosition := (0, 0) }⟩

/-- The React state of `DocumentEditor`: every `useState` hook that the claims
touch, plus the `pendingChanges` ref.  `fileUrl` is modelled by the bytes the
object URL was created from. -/
structure EditorState where
  textInputs : List TextInput
  signatureData : Option String
  signaturePosition : ℚ × ℚ
  history : List Snapshot
  currentStep : Int
  tempState : Option Snapshot
  pendingChanges : Bool
  pdfBytes : Option (List Nat)
  fileUrl : Option (List Nat)
  pageDimensions : ℚ × ℚ
  containerHeight : ℚ
  deriving DecidableEq

/-- Initial hook values: empty annotations, `signaturePosition = { x: 50, y: 50 }`,
`history = []`, `currentStep = -1`, `tempState = null`, no PDF loaded. -/
def initialState : EditorState where
  textInputs := []
  signatureData := none
  signaturePosition := (50, 50)
  history := []
  currentStep := -1
  tempState := none
  pendingChanges := false
  pdfBytes := none
  fileUrl := none
  pageDimensions := (0, 0)
  containerHeight := 0

/-- The snapshot `updateState` stores in `tempState`: a copy of the current
live annotation state. -/
def snapshotOf (s : EditorState) : Snapshot where
  textInputs := s.textInputs
  signatureData := s.signatureData
  signaturePosition := s.signaturePosition

/-- Source `updateState(updateFn)`: if `pendingChanges.current` is false, store the
pre-mutation snapshot in `tempState` and set the ref; then run `updateFn`. -/
def updateState (updateFn : EditorState → EditorState) (s : EditorState) : EditorState :=
  if s.pendingChanges then updateFn s
  else updateFn { s with tempState := some (snapshotOf s), pendingChanges := true }

/-- One queued `setHistory(prev => [...prev.slice(0, currentStep + 1), tempState])`
updater: `prev` is the running value, `c` and `t` are the render's closure
values.  JS `slice(0, n)` on a shorter array returns the whole array, matching
`List.take`. -/
def appendAtCursor (prev : List Snapshot) (c : Int) (t : Snapshot) : List Snapshot :=
  prev.take (c + 1).toNat ++ [t]

/-- The combined effect pass after a render.  When `tempState` is non-null both
history effects run (the second only if `pendingChanges.current` is still set):
their two queued `setHistory` updaters are applied in sequence and
`currentStep` is incremented once per effect. -/
def runEffects (s : EditorState) : EditorState :=
  match s.tempState with
  | none => s
  | some t =>
      let h1 := appendAtCursor s.history s.currentStep t
      if s.pendingChanges then
        { s with
          history := appendAtCursor h1 s.currentStep t
          currentStep := s.currentStep + 2
          tempState := none
          pendingChanges := false }
      else
        { s with history := h1, currentStep := s.currentStep + 1, tempState := none }

/-- Source `applyState`: replace the live annotation state with a snapshot's contents. -/
def applyState (t : Snapshot) (s : EditorState) : EditorState :=
  { s with
    textInputs := t.textInputs
    signatureData := t.signatureData
    signaturePosition := t.signaturePosition }

/-- Source `handleUndo`: if `currentStep > 0`, apply `history[currentStep - 1]` and
decrement `currentStep`. -/
def handleUndo (s : EditorState) : EditorState :=
  if s.currentStep > 0 then
    applyState (s.history.getD (s.currentStep - 1).toNat default)
      { s with currentStep := s.currentStep - 1 }
  else s

/-- Source `handleRedo`: if `currentStep < history.length - 1`, apply
`history[currentStep + 1]` and increment `currentStep`. -/
def handleRedo (s : EditorState) : EditorState :=
  if s.currentStep < (s.history.length : Int) - 1 then
    applyState (s.history.getD (s.currentStep + 1).toNat default)
      { s with currentStep := s.currentStep + 1 }
  else s

/-- Source `deleteTextInput(id)`: one user action — `updateState` filtering out the
input, then the effect pass. -/
def deleteTextInput (id : Nat) (s : EditorState) : EditorState :=
  runEffects (updateState
    (fun st => { st with textInputs := st.textInputs.filter (fun i => i.id ≠ id) }) s)

/-- Source `clearAll()`: one user action — `updateState` resetting inputs, signature
and signature position, then the effect pass. -/
def clearAll (s : EditorState) : EditorState :=
  runEffects (updateState
    (fun st => { st with
      textInputs := []
      signatureData := none
      signaturePosition := (50, 50) }) s)

/-- Source `handlePreviewClick`: one user action appending a fresh empty text input at
the click position (`id` is the `Date.now()` value). -/
def handlePreviewClick (x y : ℚ) (newId : Nat) (s : EditorState) : EditorState :=
  runEffects (updateState
    (fun st => { st with
      textInputs := st.textInputs ++ [{ id := newId, x := x, y := y, value := "" }] }) s)

/-- The debounced `handleTextChange(id, value)` flush: `updateState` mapping the
new value over the matching input, then the effect pass. -/
def handleTextChange (id : Nat) (v : String) (s : EditorState) : EditorState :=
  runEffects (updateState
    (fun st => { st with
      textInputs := st.textInputs.map
        (fun i => if i.id = id then { i with value := v } else i) }) s)

/-- Source `handleCaptureSignature`: alerts and returns if the pad is empty; otherwise
sets `signatureData` to the pad's data URL and resets the position to (50, 50).
It does not call `updateState`, so `tempState` stays null and the effect pass
is a no-op. -/
def handleCaptureSignature (padEmpty : Bool) (dataUrl : String) (s : EditorState) : EditorState :=
  if padEmpty then s
  else runEffects { s with signatureData := some dataUrl, signaturePosition := (50, 50) }

/-- One `handleMouseMove` step of the signature drag: position is the drag
start plus the pointer delta, clamped to `[10, container.width - 160]`
horizontally and `[10, container.height - 60]` vertically. -/
def handleMouseMove (initPos : ℚ × ℚ) (startX startY clientX clientY : ℚ)
    (containerWidth containerHt : ℚ) (s : EditorState) : EditorState :=
  let dx := clientX - startX
  let dy := clientY - startY
  let maxX := containerWidth - 160
  let maxY := containerHt - 60
  { s with signaturePosition :=
      (max 10 (min (initPos.1 + dx) maxX), max 10 (min (initPos.2 + dy) maxY)) }

/-- Source `handleMouseUp` of the drag: removes the document listeners and nothing
else — no state update, no commit. -/
def handleMouseUp (s : EditorState) : EditorState := s

/-- The rendered width of the signature overlay image, from its inline style
`width: '150px'`. -/
def signatureRenderedWidth : ℚ := 150

/-- Result of `PDFDocument.load` on the uploaded file: the first page's size,
or `none` when the library throws. -/
structure ParsedPdf where
  width : ℚ
  height : ℚ
  deriving DecidableEq

/-- Source `handleFileChange`: reject non-PDF files with no state change; otherwise
reset `history`, `currentStep` and `tempState`, store the bytes and the new
object URL, then try `PDFDocument.load` — on failure, alert and leave the
state as already mutated; on success also store the page dimensions.
`containerHeight` is only set later by the deferred `setTimeout` callback
(`measureContainer`). -/
def handleFileChange (validPdfFile : Bool) (bytes : List Nat) (parsed : Option ParsedPdf)
    (s : EditorState) : EditorState :=
  if ¬ validPdfFile then s
  else
    let s1 := { s with history := [], currentStep := -1, tempState := none }
    let s2 := { s1 with pdfBytes := some bytes, fileUrl := some bytes }
    match parsed with
    | none => s2
    | some p => { s2 with pageDimensions := (p.width, p.height) }

/-- The `setTimeout(..., 0)` callback of `handleFileChange`: measure the
container width and set the height from the page's aspect ratio. -/
def measureContainer (containerWidth : ℚ) (s : EditorState) : EditorState :=
  { s with containerHeight := (s.pageDimensions.2 / s.pageDimensions.1) * containerWidth }

/-- Source `convertToPdfCoordinates(x, y)`: scale by the container dimensions read
from the preview element and invert the Y axis against the page height. -/
def convertToPdfCoordinates (x y containerWidth containerHt pageWidth pageHeight : ℚ) :
    ℚ × ℚ :=
  ((x / containerWidth) * pageWidth,
   pageHeight - ((y / containerHt) * pageHeight))

/-- JavaScript `String.prototype.trim()`: strip leading and trailing
whitespace.  (Defined over the character list so that it is kernel-executable;
core `String.trim` is well-founded-recursive and does not reduce.) -/
def jsTrim (s : String) : String :=
  ⟨((s.data.dropWhile Char.isWhitespace).reverse.dropWhile Char.isWhitespace).reverse⟩

/-- A drawing call issued against the first page while saving. -/
inductive DrawOp where
  | drawImage (x y width height : ℚ)
  | drawText (text : String) (x y size : ℚ)
  deriving DecidableEq

/-- Source `handleSavePdf`: no-op alert when no PDF is loaded; on a library throw
(`loadOk = false`) alert and produce nothing; otherwise draw the signature
image (if present) and every text input whose trimmed value is non-empty, at
coordinates converted with the preview element's measured dimensions.  The
handler calls no state setter, so the returned state is the input state. -/
def handleSavePdf (offsetWidth offsetHeight sigImgWidth sigImgHeight : ℚ) (loadOk : Bool)
    (s : EditorState) : EditorState × Option (List DrawOp) :=
  if s.pdfBytes = none then (s, none)
  else if ¬ loadOk then (s, none)
  else
    let sigOps : List DrawOp :=
      match s.signatureData with
      | none => []
      | some _ =>
          let c := convertToPdfCoordinates s.signaturePosition.1 s.signaturePosition.2
            offsetWidth offsetHeight s.pageDimensions.1 s.pageDimensions.2
          let h := sigImgHeight * (150 / sigImgWidth)
          [DrawOp.drawImage c.1 (c.2 - h) 150 h]
    let textOps : List DrawOp := s.textInputs.filterMap (fun t =>
      if jsTrim t.value = "" then none
      else
        let c := convertToPdfCoordinates t.x t.y
          offsetWidth offsetHeight s.pageDimensions.1 s.pageDimensions.2
        some (DrawOp.drawText t.value c.1 c.2 18))
    (s, some (sigOps ++ textOps))

/-- The text contents actually drawn by a list of save operations. -/
def drawnTexts (ops : List DrawOp) : List String :=
  ops.filterMap (fun op =>
    match op with
    | DrawOp.drawText v _ _ _ => some v
    | _ => none)

end DocEditor

namespace DocEditor

/- Concrete scenario: load a PDF successfully, then commit user actions.
These states are reachable executions of the handlers above. -/

/-- State after a successful `handleFileChange` on a 612x792 (US-letter) PDF.
The container-measuring timeout has not fired yet. -/
def stateLoaded : EditorState :=
  handleFileChange true [9, 9] (some { width := 612, height := 792 }) initialState

/-- The text input created by the first preview click. -/
def input1 : TextInput := { id := 1, x := 100, y := 100, value := "" }

/-- The text input created by the second preview click. -/
def input2 : TextInput := { id := 2, x := 200, y := 200, value := "" }

/-- The snapshot of the empty annotation state. -/
def emptySnap : Snapshot :=
  { textInputs := [], signatureData := none, signaturePosition := (50, 50) }

/-- The snapshot of the state holding exactly `input1`. -/
def snap1 : Snapshot :=
  { textInputs := [input1], signatureData := none, signaturePosition := (50, 50) }

/-- State after the first committed action (preview click at (100, 100)). -/
def stateClick1 : EditorState := handlePreviewClick 100 100 1 stateLoaded

/-- State after a second committed action (preview click at (200, 200)). -/
def stateClick2 : EditorState := handlePreviewClick 200 200 2 stateClick1

/-- State after one undo from `stateClick2`. -/
def stateUndone : EditorState := handleUndo stateClick2

/-- State after one redo from `stateUndone`. -/
def stateRedone : EditorState := handleRedo stateUndone

/-- State after the debounced text edit of input 1 to value `hello`. -/
def stateEdited : EditorState := handleTextChange 1 ("hello") stateClick1

/-- State holding one non-blank text input (`hello`) and one blank one. -/
def stateBoth : EditorState := handlePreviewClick 300 300 3 stateEdited

/-- State after capturing a signature from `stateClick1`. -/
def stateCaptured : EditorState := handleCaptureSignature false ("sigPng") stateClick1

/-- State after selecting a second PDF whose parse fails, from `stateClick1`. -/
def stateReloadFailed : EditorState := handleFileChange true [7] none stateClick1

/-- C1: the undo/redo round trip fails on the code.  With N = 2 committed
actions and k = 1 undo, the cursor is 2 (not N-1-k = 0) and the live state
(`[input1]`) differs from the snapshot stored at index 0 (the empty state);
the subsequent redo is a no-op (the cursor already sits at
`history.length - 1`), so the live state stays `[input1]` instead of
returning to the pre-undo state `[input1, input2]`. -/
theorem c1_undo_redo_round_trip_fails :
    stateClick2.textInputs = [input1, input2] ∧
    stateClick2.currentStep = 3 ∧
    stateUndone.currentStep = 2 ∧
    stateUndone.textInputs = [input1] ∧
    (stateClick2.history.getD 0 default).textInputs = [] ∧
    stateUndone.textInputs ≠ (stateClick2.history.getD 0 default).textInputs ∧
    stateRedone = stateUndone ∧
    stateRedone.textInputs ≠ stateClick2.textInputs := by
  decide

/-- C2: a single committed user action advances the cursor by two, not one:
both history effects run for the same `tempState`.  The first action moves
`currentStep` from -1 to 1 while appending one snapshot; the second action
appends the pending snapshot twice (history becomes
`[emptySnap, snap1, snap1]`) and moves the cursor from 1 to 3. -/
theorem c2_commit_advances_cursor_twice :
    stateLoaded.currentStep = -1 ∧
    stateLoaded.history = [] ∧
    stateClick1.currentStep = 1 ∧
    stateClick1.history = [emptySnap] ∧
    stateClick2.currentStep = 3 ∧
    stateClick2.history = [emptySnap, snap1, snap1] := by
  decide

/-- C3: capturing a signature commits nothing to history — the handler sets
`signatureData` and the position directly without `updateState`, so history
and cursor are unchanged (zero entries, not one); and neither an intermediate
drag move nor the pointer-up release touches history or cursor, so a drag as
a whole is never committed. -/
theorem c3_capture_and_drag_commit_nothing :
    stateCaptured.signatureData = some ("sigPng") ∧
    stateCaptured.history = stateClick1.history ∧
    stateCaptured.currentStep = stateClick1.currentStep ∧
    (handleMouseMove (50, 50) 0 0 30 40 800 1000 stateCaptured).history =
      stateCaptured.history ∧
    (handleMouseUp (handleMouseMove (50, 50) 0 0 30 40 800 1000 stateCaptured)).history =
      stateCaptured.history ∧
    (handleMouseUp (handleMouseMove (50, 50) 0 0 30 40 800 1000 stateCaptured)).currentStep =
      stateCaptured.currentStep := by
  decide

/-- C8: the cursor invariant `0 ≤ cursor < length(snapshots)` fails in a
reachable state: after one committed action from a fresh document the
snapshot list has length 1 but the cursor is 1. -/
theorem c8_cursor_invariant_fails :
    0 < stateClick1.history.length ∧
    stateClick1.currentStep = 1 ∧
    ¬ stateClick1.currentStep < (stateClick1.history.length : Int) := by
  decide

/-- C9: a failed parse of a newly selected file is not atomic: starting from a
state with one history entry, cursor 1 and stored bytes `[9, 9]`, selecting a
PDF-typed file `[7]` whose `PDFDocument.load` throws leaves the history
emptied, the cursor reset to -1, and the stored bytes and preview URL already
replaced by the new file's. -/
theorem c9_failed_load_not_atomic :
    stateClick1.history = [emptySnap] ∧
    stateClick1.currentStep = 1 ∧
    stateClick1.pdfBytes = some [9, 9] ∧
    stateReloadFailed.history = [] ∧
    stateReloadFailed.currentStep = -1 ∧
    stateReloadFailed.pdfBytes = some [7] ∧
    stateReloadFailed.fileUrl = some [7] ∧
    stateReloadFailed.fileUrl ≠ stateClick1.fileUrl := by
  decide

/-- C7: the save path does not defer until geometry is known.  In the window
after a successful load but before the deferred measurement callback fires,
`containerHeight` is still 0, yet `handleSavePdf` proceeds (its only guard is
on `pdfBytes`) and feeds the zero height to `convertToPdfCoordinates`.  In
this rational model `100 / 0 = 0`, so the drawn Y degenerates to the full
page height 792; in JavaScript the same division yields a non-finite value. -/
theorem c7_save_proceeds_with_zero_height :
    stateEdited.pdfBytes = some [9, 9] ∧
    stateEdited.containerHeight = 0 ∧
    (handleSavePdf 800 stateEdited.containerHeight 500 200 true stateEdited).2 =
      some [DrawOp.drawText ("hello") (153 / 2) 792 18] := by
  have hpdf : stateEdited.pdfBytes = some [9, 9] := by decide
  have hh : stateEdited.containerHeight = 0 := by decide
  have hsig : stateEdited.signatureData = none := by decide
  have htext : stateEdited.textInputs =
      [{ id := 1, x := 100, y := 100, value := "hello" }] := by decide
  have hdim : stateEdited.pageDimensions = (612, 792) := by decide
  have htrim : jsTrim ("hello") = ("hello") := rfl
  refine ⟨hpdf, hh, ?_⟩
  rw [hh]
  simp only [handleSavePdf, hpdf, hsig, htext, hdim, convertToPdfCoordinates,
    List.filterMap, htrim]
  norm_num
  exact rfl

/-- C5: the overlay-to-PDF transform computes exactly
`((x / pw) * PW, PH - (y / ph) * PH)`, and at preview size 800x1000 with page
size 612x792 it maps (0,0) to (0,792), (800,1000) to (612,0) and (400,500)
to (306,396). -/
theorem c5_coordinate_transform_exact :
    (∀ x y pw ph pgW pgH : ℚ,
      convertToPdfCoordinates x y pw ph pgW pgH = ((x / pw) * pgW, pgH - (y / ph) * pgH)) ∧
    convertToPdfCoordinates 0 0 800 1000 612 792 = (0, 792) ∧
    convertToPdfCoordinates 800 1000 800 1000 612 792 = (612, 0) ∧
    convertToPdfCoordinates 400 500 800 1000 612 792 = (306, 396) := by
  refine ⟨fun _ _ _ _ _ _ => rfl, ?_, ?_, ?_⟩ <;>
    · simp only [convertToPdfCoordinates, Prod.mk.injEq]
      constructor <;> norm_num

/-- C6 counterexample: dragging the signature from (50,50) by pointer delta
(1000,1000) inside an 800x1000 preview lands at (640, 940), but the claimed
`maxX = 800 - signatureWidth` equals 650 for the signature image rendered at
width 150px — the code clamps at `containerWidth - 160`, i.e. width plus the
10px buffer, so the claim as stated is false. -/
theorem c6_clamp_counterexample :
    (handleMouseMove (50, 50) 0 0 1000 1000 800 1000 initialState).signaturePosition =
      (640, 940) ∧
    (640 : ℚ) ≠ 800 - signatureRenderedWidth := by
  constructor
  · simp only [handleMouseMove, Prod.mk.injEq]
    constructor <;> rw [min_def, max_def] <;> norm_num
  · norm_num [signatureRenderedWidth]

/-- C6 amended: inside the 800x1000 preview the drag clamp keeps the signature
position within `[10, 800 - (signatureWidth + 10)]` horizontally (rendered
width 150 plus the 10px buffer, so maxX = 640) and `[10, 1000 - 60]`
vertically (a fixed 60px buffer, so maxY = 940); the drag of the claim —
from (50,50) by delta (1000,1000) — lands exactly on (maxX, maxY) =
(640, 940) and never beyond. -/
theorem c6_clamp_amended (initPos : ℚ × ℚ) (startX startY clientX clientY : ℚ)
    (s : EditorState) :
    10 ≤ (handleMouseMove initPos startX startY clientX clientY 800 1000 s).signaturePosition.1 ∧
    (handleMouseMove initPos startX startY clientX clientY 800 1000 s).signaturePosition.1 ≤
      800 - (signatureRenderedWidth + 10) ∧
    10 ≤ (handleMouseMove initPos startX startY clientX clientY 800 1000 s).signaturePosition.2 ∧
    (handleMouseMove initPos startX startY clientX clientY 800 1000 s).signaturePosition.2 ≤
      1000 - 60 ∧
    (handleMouseMove (50, 50) 0 0 1000 1000 800 1000 s).signaturePosition = (640, 940) := by
  have e : (800 : ℚ) - (signatureRenderedWidth + 10) = 800 - 160 := by
    norm_num [signatureRenderedWidth]
  refine ⟨le_max_left _ _, ?_, le_max_left _ _, ?_, ?_⟩
  · rw [e]
    exact max_le (by norm_num) (min_le_right _ _)
  · exact max_le (by norm_num) (min_le_right _ _)
  · simp only [handleMouseMove, Prod.mk.injEq]
    constructor <;> rw [min_def, max_def] <;> norm_num

/-- Indexing the history produced by a commit: both effect updaters append the
pending snapshot after truncating at the render cursor `k`; position `k` of
the combined result holds that snapshot whenever `k ≤ length + 1`. -/
theorem getD_double_append {α : Type} [Inhabited α] (l : List α) (a : α) (k : Nat)
    (hk : k ≤ l.length + 1) :
    ((l.take k ++ [a]).take k ++ [a]).getD k default = a := by
  have h1 : ((l.take k ++ [a]).take k).length = k := by
    simp only [List.length_take, List.length_append, List.length_singleton]
    omega
  rw [List.getD_append_right _ _ _ _ h1.le, h1, Nat.sub_self]
  rfl

/-- C4: `clearAll()` followed by `undo()` restores exactly the annotation state
(text inputs, signature data and signature position) that held immediately
before the clear.  The hypotheses say the state sits between user actions
(`tempState` null, no pending mutation), satisfies the bound
`-1 ≤ currentStep ≤ history.length` that every reachable state satisfies, and
is non-empty as in the claim. -/
theorem c4_clearAll_undo_restores (s : EditorState)
    ( _htemp : s.tempState = none) (hpend : s.pendingChanges = false)
    (hlo : -1 ≤ s.currentStep) (hhi : s.currentStep ≤ (s.history.length : Int))
    ( _hne : s.textInputs ≠ [] ∨ s.signatureData ≠ none) :
    (handleUndo (clearAll s)).textInputs = s.textInputs ∧
    (handleUndo (clearAll s)).signatureData = s.signatureData ∧
    (handleUndo (clearAll s)).signaturePosition = s.signaturePosition := by
  have hstep : (0 : Int) < s.currentStep + 2 := by omega
  have hidx : s.currentStep + 2 - 1 = s.currentStep + 1 := by omega
  have hk : (s.currentStep + 1).toNat ≤ s.history.length + 1 := by omega
  simp only [clearAll, updateState, hpend, Bool.false_eq_true, if_false, runEffects,
    appendAtCursor, handleUndo, applyState, snapshotOf, hstep, if_true, hidx,
    getD_double_append s.history _ _ hk]
  simp

/-- Witness for C4 at a concrete state: one text input plus a captured
signature at (120, 80), with one history entry and cursor 1. -/
def c4Sample : EditorState where
  textInputs := [{ id := 5, x := 20, y := 30, value := "note" }]
  signatureData := some ("sigdata")
  signaturePosition := (120, 80)
  history := [{ textInputs := [], signatureData := none, signaturePosition := (50, 50) }]
  currentStep := 1
  tempState := none
  pendingChanges := false
  pdfBytes := some [9]
  fileUrl := some [9]
  pageDimensions := (612, 792)
  containerHeight := 100

/-- C4 witness: the hypotheses hold at `c4Sample` and clear-then-undo restores
its annotation state, by the C4 theorem applied there. -/
theorem c4_clearAll_undo_restores_witness :
    c4Sample.tempState = none ∧ c4Sample.pendingChanges = false ∧
    -1 ≤ c4Sample.currentStep ∧ c4Sample.currentStep ≤ (c4Sample.history.length : Int) ∧
    c4Sample.textInputs ≠ [] ∧
    ((handleUndo (clearAll c4Sample)).textInputs = c4Sample.textInputs ∧
     (handleUndo (clearAll c4Sample)).signatureData = c4Sample.signatureData ∧
     (handleUndo (clearAll c4Sample)).signaturePosition = c4Sample.signaturePosition) :=
  ⟨by decide, by decide, by decide, by decide, by decide,
    c4_clearAll_undo_restores c4Sample (by decide) (by decide) (by decide) (by decide)
      (Or.inl (by decide))⟩

/-- Lemma: `drawnTexts` distributes over list append. -/
theorem drawnTexts_append (l1 l2 : List DrawOp) :
    drawnTexts (l1 ++ l2) = drawnTexts l1 ++ drawnTexts l2 :=
  List.filterMap_append l1 l2 _

/-- Lemma: `drawnTexts` collects a leading drawText's contents. -/
theorem drawnTexts_cons_text (v : String) (x y sz : ℚ) (ops : List DrawOp) :
    drawnTexts (DrawOp.drawText v x y sz :: ops) = v :: drawnTexts ops := rfl

/-- Lemma: `drawnTexts` skips a leading drawImage. -/
theorem drawnTexts_cons_image (x y w h : ℚ) (ops : List DrawOp) :
    drawnTexts (DrawOp.drawImage x y w h :: ops) = drawnTexts ops := rfl

/-- Lemma: `drawnTexts` of no operations is empty. -/
theorem drawnTexts_nil : drawnTexts [] = [] := rfl

/-- Extracting the drawn text contents from the save operations built over a
text-input list: exactly the values of the inputs whose trimmed value is
non-empty, in list order. -/
theorem drawnTexts_filterMap (l : List TextInput) (px py : TextInput → ℚ) :
    drawnTexts (l.filterMap (fun t =>
        if jsTrim t.value = "" then none
        else some (DrawOp.drawText t.value (px t) (py t) 18))) =
      (l.filter (fun t => !(jsTrim t.value == ""))).map (fun t => t.value) := by
  induction l with
  | nil => rfl
  | cons t rest ih =>
      by_cases h : jsTrim t.value = "" <;>
        simp [List.filterMap_cons, List.filter_cons, h, drawnTexts_cons_text, ih]

/-- C10: saving draws exactly the text annotations whose value has non-blank
content — an input whose value trims to the empty string is silently skipped
(no drawText call), every other input is drawn, in list order — and the
handler leaves the editor state, in particular the on-screen annotation list,
unchanged. -/
theorem c10_blank_texts_omitted (s : EditorState)
    (ow oh sw sh : ℚ) (bs : List Nat) (hb : s.pdfBytes = some bs) :
    (handleSavePdf ow oh sw sh true s).1 = s ∧
    (handleSavePdf ow oh sw sh true s).2 ≠ none ∧
    drawnTexts ((handleSavePdf ow oh sw sh true s).2.getD []) =
      (s.textInputs.filter (fun t => !(jsTrim t.value == ""))).map (fun t => t.value) := by
  have hnot : s.pdfBytes ≠ none := by simp [hb]
  refine ⟨?_, ?_, ?_⟩ <;>
    cases hsig : s.signatureData <;>
      simp [handleSavePdf, hnot, hsig, drawnTexts_append, drawnTexts_cons_image,
        drawnTexts_nil, drawnTexts_filterMap]

/-- C10 witness: `stateBoth` holds a PDF and two inputs, with values `hello`
and the empty string; the C10 theorem applied there. -/
theorem c10_blank_texts_omitted_witness :
    stateBoth.pdfBytes = some [9, 9] ∧
    ((handleSavePdf 800 990 500 200 true stateBoth).1 = stateBoth ∧
     (handleSavePdf 800 990 500 200 true stateBoth).2 ≠ none ∧
     drawnTexts ((handleSavePdf 800 990 500 200 true stateBoth).2.getD []) =
       (stateBoth.textInputs.filter (fun t => !(jsTrim t.value == ""))).map
         (fun t => t.value)) :=
  ⟨by decide, c10_blank_texts_omitted stateBoth 800 990 500 200 [9, 9] (by decide)⟩

end DocEditor
